import Mathlib

/-!
Shallow embedding of the authentication core of the turboxGo backend:
the `UserService` class (loginUser, getMyUser, getMyUserFromId, createUser,
findOrCreateMicrosoftUser) and the user routes (register, login, refresh,
microsoft-auth), together with models of the external collaborators they
use (the Prisma-backed user store, bcrypt, jsonwebtoken and zod's email
format check).

The database is a list of user rows threaded explicitly through every
operation that can write.  JavaScript `throw {status, error}` objects
become `Except ErrObj`; nested error payloads (an `{status, error}` object
re-thrown inside another) are represented by the recursive `ErrPayload`.
Timestamps (`Date.now()`, `new Date()`) are explicit `Nat` parameters, and
the ids Prisma generates plus the `Math.random()` suffix are explicit
parameters as well, so every definition is a pure function.
-/

namespace TurboGo

/-- A persisted user row of the `users` table, as read and written through
the ORM.  Nullable columns are `Option`s; timestamps are `Nat`. -/
structure UserRow where
  id : String
  name : String
  email : Option String
  password_hash : Option String
  plan_id : String
  microsoft_id : Option String
  photo_url : Option String := none
  created_at : Option Nat := none
  last_login : Option Nat := none
deriving Repr, DecidableEq

/-- The `User` interface returned by the service methods (types/index.ts). -/
structure User where
  id : String
  plan_id : String
  name : String
  email : Option String
  photo_url : Option String := none
  password_hash : Option String := none
  microsoft_id : Option String := none
  created_at : Option Nat := none
  last_login : Option Nat := none
deriving Repr, DecidableEq

/-- A JSON error payload as thrown by the services: either a plain string,
a zod issues array, or a nested `{status, error}` object (which is what a
caught `{status, error}` throw becomes when it is re-thrown as the `error`
field of another object). -/
inductive ErrPayload where
  | str : String → ErrPayload
  | issues : List String → ErrPayload
  | obj : Nat → ErrPayload → ErrPayload
deriving Repr, DecidableEq

/-- A thrown `{status, error}` object. -/
structure ErrObj where
  status : Nat
  error : ErrPayload
deriving Repr, DecidableEq

/-! ### Model of the credential store (Prisma client over the `users` table)

Modelled from the spec: the Prisma schema itself is not part of the source
tree, but the spec's data model declares `id` the primary key and `email`
unique when present ("email, when present, is unique across all users"),
and its store interface says an insert hitting a unique constraint
surfaces as a distinguishable duplicate condition; `findUnique` on the
`email` field also requires it to be a unique column. -/

/-- `prisma.users.findUnique({ where: { email } })`. -/
def findUniqueByEmail (db : List UserRow) (email : String) : Option UserRow :=
  db.find? (fun u => u.email == some email)

/-- `prisma.users.findUnique({ where: { id } })`. -/
def findUniqueById (db : List UserRow) (id : String) : Option UserRow :=
  db.find? (fun u => u.id == id)

/-- Error message of a Prisma unique-constraint violation on a column. -/
def uniqueViolationMsg (field : String) : String :=
  "Unique constraint failed on the fields: (" ++ field ++ ")"

/-- `prisma.users.create({ data })`: appends the row, failing when the
primary key or the (nullable, unique) email column collides. -/
def createRow (db : List UserRow) (u : UserRow) : Except String (List UserRow) :=
  if (findUniqueById db u.id).isSome then
    .error (uniqueViolationMsg "id")
  else
    match u.email with
    | some e =>
        if (findUniqueByEmail db e).isSome then
          .error (uniqueViolationMsg "email")
        else
          .ok (db ++ [u])
    | none => .ok (db ++ [u])

/-- `prisma.users.update({ where: { id }, data: { last_login } })`:
the new database contents. -/
def updateLastLogin (db : List UserRow) (id : String) (t : Nat) : List UserRow :=
  db.map (fun v => if v.id == id then { v with last_login := some t } else v)

/-! ### Model of bcryptjs

`hash` is modelled as an injective encoding of the plaintext (with the cost
factor in the prefix, as in a real bcrypt digest) and `compare` as the
matching check, so that `compare p (hash p) = true` and comparing against
the hash of a different plaintext fails — the functional contract the
service relies on. -/

/-- `bcrypt.hash(plaintext, cost)`. -/
def bcryptHash (plaintext : String) (cost : Nat) : String :=
  "$2a$" ++ toString cost ++ "$" ++ plaintext

/-- `bcrypt.compare(plaintext, digest)`. -/
def bcryptCompare (plaintext digest : String) : Bool :=
  digest == bcryptHash plaintext 10

/-! ### Model of jsonwebtoken -/

/-- The claims object carried by a token.  Tokens issued by this backend
always set `userId`; access tokens additionally set email, name and
provider. -/
structure JwtPayload where
  userId : String
  email : Option String := none
  name : Option String := none
  provider : Option String := none
deriving Repr, DecidableEq

/-- A signed token: the claims plus the secret it was signed with and its
issue/expiry times.  Verification against a different secret fails, which
also models tampered tokens. -/
structure SignedToken where
  payload : JwtPayload
  secret : String
  iat : Nat
  exp : Nat
deriving Repr, DecidableEq

/-- The two error classes `jwt.verify` can throw. -/
inductive JwtError where
  | jsonWebTokenError
  | tokenExpiredError
deriving Repr, DecidableEq

/-- `jwt.sign(payload, secret, { expiresIn })` at time `now`. -/
def jwtSign (payload : JwtPayload) (secret : String) (now expiresIn : Nat) :
    SignedToken :=
  { payload := payload, secret := secret, iat := now, exp := now + expiresIn }

/-- `jwt.verify(token, secret)` at time `now`. -/
def jwtVerify (t : SignedToken) (secret : String) (now : Nat) :
    Except JwtError JwtPayload :=
  if t.secret ≠ secret then .error .jsonWebTokenError
  else if t.exp ≤ now then .error .tokenExpiredError
  else .ok t.payload

/-- `process.env.ACCESS_TOKEN_SECRET`. -/
def ACCESS_TOKEN_SECRET : String := "access-token-secret"

/-- `process.env.REFRESH_TOKEN_SECRET`. -/
def REFRESH_TOKEN_SECRET : String := "refresh-token-secret"

/-- `expiresIn: '24h'`, in seconds. -/
def accessTokenExpiry : Nat := 24 * 60 * 60

/-- `expiresIn: '7d'`, in seconds. -/
def refreshTokenExpiry : Nat := 7 * 24 * 60 * 60

/-! ### Model of the zod register schema -/

/-- Models zod's `z.string().email()` format check: exactly one `@`,
non-empty local part and domain, a dot in the domain, no spaces.  Works on
the character list so that it evaluates by kernel reduction. -/
def isValidEmail (s : String) : Bool :=
  let cs := s.data
  let localPart := cs.takeWhile (fun c => c ≠ '@')
  let rest := (cs.dropWhile (fun c => c ≠ '@')).drop 1
  cs.count '@' == 1 && !localPart.isEmpty && !rest.isEmpty &&
    rest.contains '.' && !cs.contains ' '

/-- The issue messages produced by `registerSchema.safeParse`; parsing
succeeds exactly when this list is empty. -/
def registerSchemaIssues (name email password : String) : List String :=
  (if name.length < 2 then ["Name must be at least 2 characters long."] else []) ++
  (if isValidEmail email then [] else ["Invalid email address."]) ++
  (if password.length < 6 then ["Password must be at least 6 characters long."] else [])

/-- JavaScript truthiness of a nullable string: `null`/`undefined` and the
empty string are falsy. -/
def optStrFalsy : Option String → Bool
  | none => true
  | some s => s == ""

/-- Copies every column of a row into the `User` shape, as the service
methods that select all fields do. -/
def rowToUser (u : UserRow) : User :=
  { id := u.id, plan_id := u.plan_id, name := u.name, email := u.email,
    photo_url := u.photo_url, password_hash := u.password_hash,
    microsoft_id := u.microsoft_id, created_at := u.created_at,
    last_login := u.last_login }

/-- `plan_id` assigned to every newly created user. -/
def defaultPlanId : String := "3d599a04-2792-4862-b24a-7eaa35a72af5"

/-! ### UserService -/

/-- `UserService.loginUser(email, password)`: looks the user up by email,
rejects missing user / falsy password hash / bcrypt mismatch with the same
401 object, otherwise returns every column of the row.  The method only
reads, so the database it returns is the one it was given; the catch
re-throws `{status: error.status || 500, error: error.error || ...}`,
which leaves the 401 objects unchanged. -/
def loginUser (db : List UserRow) (email password : String) :
    Except ErrObj (List UserRow × User) :=
  match findUniqueByEmail db email with
  | none => .error ⟨401, .str "Invalid email or password"⟩
  | some user =>
    if optStrFalsy user.password_hash then
      .error ⟨401, .str "Invalid email or password"⟩
    else if !bcryptCompare password (user.password_hash.getD "") then
      .error ⟨401, .str "Invalid email or password"⟩
    else
      .ok (db, rowToUser user)

/-- `UserService.getMyUser(token)` at time `now`: verifies the access
token, then fetches the user row by the token's `userId` with a `select`
that omits `created_at`/`last_login`.  JWT verification errors are mapped
by the catch to 401; a falsy `userId` raises `{401, 'Invalid token
payload'}`, but that plain object fails the catch's JWT-name test and is
re-thrown wrapped in a status-500 object; a missing user returns `null`. -/
def getMyUser (db : List UserRow) (token : SignedToken) (now : Nat) :
    Except ErrObj (Option User) :=
  match jwtVerify token ACCESS_TOKEN_SECRET now with
  | .error _ => .error ⟨401, .str "Invalid or expired token"⟩
  | .ok decoded =>
    if decoded.userId == "" then
      .error ⟨500, .obj 401 (.str "Invalid token payload")⟩
    else
      match findUniqueById db decoded.userId with
      | none => .ok none
      | some dbUser =>
        .ok (some { id := dbUser.id, plan_id := dbUser.plan_id,
                    name := dbUser.name, email := dbUser.email,
                    photo_url := dbUser.photo_url,
                    password_hash := dbUser.password_hash,
                    microsoft_id := dbUser.microsoft_id })

/-- `UserService.getMyUserFromId(userId)`: plain lookup by id returning
every selected column, or `null`. -/
def getMyUserFromId (db : List UserRow) (userId : String) : Option User :=
  (findUniqueById db userId).map rowToUser

/-- `UserService.createUser({name, email, password})` at time `now`, with
`freshId` the id the store generates for the row and `rand` the
`Math.random().toString(36).substr(2, 9)` suffix.  The zod failure
(status 400) and the duplicate-email conflict (status 409) are thrown
inside the method's own `try`, and its catch re-throws every error as
`{status: 500, error: <the caught object>}` — so both surface with outer
status 500, the original object nested in the `error` field.  A store
unique-constraint failure is an `Error` instance, so only its message is
kept. -/
def createUser (db : List UserRow) (name email password : String)
    (now : Nat) (freshId rand : String) :
    Except ErrObj (List UserRow × UserRow) :=
  let issues := registerSchemaIssues name email password
  if issues ≠ [] then
    .error ⟨500, .obj 400 (.issues issues)⟩
  else if (findUniqueByEmail db email).isSome then
    .error ⟨500, .obj 409 (.str "User with this email already exists.")⟩
  else
    let hashedPassword := bcryptHash password 10
    let newUser : UserRow :=
      { id := freshId, name := name, email := some email,
        password_hash := some hashedPassword,
        plan_id := defaultPlanId,
        microsoft_id := some ("temp_" ++ toString now ++ "_" ++ rand),
        created_at := some now }
    match createRow db newUser with
    | .error msg => .error ⟨500, .str msg⟩
    | .ok db2 => .ok (db2, newUser)

/-- `UserService.findOrCreateMicrosoftUser({microsoft_id, name, email})`
at time `now`.  Looks up by `microsoft_id` as the primary key; when found,
updates `last_login` and returns the row with `isNewUser = false`.  When
absent, the method optionally probes by email — the collision case is a
comment only, no merge and no write — and then creates a row with the
Microsoft id as primary key, no password hash, the default plan and a
`microsoft_` marker; a store failure (e.g. the unique-email constraint)
is re-thrown by the catch as status 500 with the `Error`'s message. -/
def findOrCreateMicrosoftUser (db : List UserRow)
    (microsoft_id name email : String) (now : Nat) :
    Except ErrObj (List UserRow × User × Bool) :=
  match findUniqueById db microsoft_id with
  | some existingUser =>
      let db2 := updateLastLogin db microsoft_id now
      let updated := { existingUser with last_login := some now }
      .ok (db2, rowToUser updated, false)
  | none =>
      let newUser : UserRow :=
        { id := microsoft_id, name := name, email := some email,
          password_hash := none, plan_id := defaultPlanId,
          microsoft_id := some ("microsoft_" ++ microsoft_id),
          created_at := some now, last_login := some now }
      match createRow db newUser with
      | .error msg => .error ⟨500, .str msg⟩
      | .ok db2 => .ok (db2, rowToUser newUser, true)

/-! ### Route handlers (userRoutes) -/

/-- Outcome of a route handler: an `res.status(s).json({success: true,
...})` with the cookies it set, or an error response `{success: false,
error}`.  Error responses set no cookies (none of the handlers set a
cookie before responding with an error). -/
inductive RouteResult (α : Type) where
  | ok (status : Nat) (cookiesSet : List (String × SignedToken)) (body : α)
  | err (status : Nat) (error : ErrPayload)
deriving Repr, DecidableEq

/-- Success body of `POST /api/users/refresh`. -/
structure RefreshBody where
  accessToken : SignedToken
  user : User
deriving Repr, DecidableEq

/-- Success body of register / microsoft-auth. -/
structure AuthBody where
  id : String
  email : Option String
  name : String
  plan_id : String
  accessToken : SignedToken
  refreshToken : SignedToken
deriving Repr, DecidableEq

/-- `POST /api/users/refresh` at time `now`: verifies the `refreshToken`
cookie against the refresh secret, re-fetches the user, and on success
signs a fresh access token with `provider: 'email'`, setting only the
`accessToken` cookie and returning `{accessToken, user}` — no new refresh
token is produced anywhere. -/
def refreshRoute (db : List UserRow) (refreshCookie : Option SignedToken)
    (now : Nat) : RouteResult RefreshBody :=
  match refreshCookie with
  | none => .err 401 (.str "Refresh token missing")
  | some refreshToken =>
    match jwtVerify refreshToken REFRESH_TOKEN_SECRET now with
    | .error _ => .err 401 (.str "Invalid or expired refresh token")
    | .ok decoded =>
      match getMyUserFromId db decoded.userId with
      | none => .err 401 (.str "User not found")
      | some user =>
        let accessToken := jwtSign
          { userId := user.id, email := user.email, name := some user.name,
            provider := some "email" }
          ACCESS_TOKEN_SECRET now accessTokenExpiry
        .ok 200 [("accessToken", accessToken)]
          { accessToken := accessToken, user := user }

/-- `POST /api/users/register`: requires truthy name/email/password,
delegates to `createUser` (re-raising its `{status, error}` as the HTTP
status and error body), then signs the access (provider 'email') and
refresh tokens, sets both cookies and answers 201. -/
def registerRoute (db : List UserRow) (name email password : String)
    (now : Nat) (freshId rand : String) :
    List UserRow × RouteResult AuthBody :=
  if name == "" || email == "" || password == "" then
    (db, .err 400 (.str "Name, email, and password are required"))
  else
    match createUser db name email password now freshId rand with
    | .error e => (db, .err e.status e.error)
    | .ok (db2, newUser) =>
      let accessToken := jwtSign
        { userId := newUser.id, email := newUser.email,
          name := some newUser.name, provider := some "email" }
        ACCESS_TOKEN_SECRET now accessTokenExpiry
      let refreshToken := jwtSign { userId := newUser.id }
        REFRESH_TOKEN_SECRET now refreshTokenExpiry
      (db2, .ok 201 [("accessToken", accessToken), ("refreshToken", refreshToken)]
        { id := newUser.id, email := newUser.email, name := newUser.name,
          plan_id := newUser.plan_id, accessToken := accessToken,
          refreshToken := refreshToken })

/-- `POST /api/users/microsoft-auth`: requires truthy microsoft_id and
name, substitutes the fallback email when the given one is falsy,
delegates to `findOrCreateMicrosoftUser`, then signs the access token with
`provider: 'microsoft'` plus a refresh token, sets both cookies and
answers 200. -/
def microsoftAuthRoute (db : List UserRow) (microsoft_id name email : String)
    (now : Nat) : List UserRow × RouteResult AuthBody :=
  if microsoft_id == "" || name == "" then
    (db, .err 400 (.str "Microsoft ID and name are required"))
  else
    let effectiveEmail :=
      if email == "" then microsoft_id ++ "@microsoft.oauth" else email
    match findOrCreateMicrosoftUser db microsoft_id name effectiveEmail now with
    | .error e => (db, .err e.status e.error)
    | .ok (db2, user, _isNewUser) =>
      let accessToken := jwtSign
        { userId := user.id, email := user.email, name := some user.name,
          provider := some "microsoft" }
        ACCESS_TOKEN_SECRET now accessTokenExpiry
      let refreshToken := jwtSign { userId := user.id }
        REFRESH_TOKEN_SECRET now refreshTokenExpiry
      (db2, .ok 200 [("accessToken", accessToken), ("refreshToken", refreshToken)]
        { id := user.id, email := user.email, name := user.name,
          plan_id := user.plan_id, accessToken := accessToken,
          refreshToken := refreshToken })

/-! ### Concrete fixtures used by closed (witness / counterexample) theorems -/

/-- A password-registered user row. -/
def anaRow : UserRow :=
  { id := "u-1", name := "Ana", email := some "ana@x.com",
    password_hash := some (bcryptHash "secret1" 10), plan_id := defaultPlanId,
    microsoft_id := some "temp_0_r0", created_at := some 0 }

/-- A user row created by the Microsoft OAuth flow. -/
def msRow : UserRow :=
  { id := "ms-1", name := "Bob", email := some "bob@x.com",
    password_hash := none, plan_id := defaultPlanId,
    microsoft_id := some "microsoft_ms-1", created_at := some 1,
    last_login := some 1 }

/-- A refresh token for `msRow`, correctly signed. -/
def goodRefreshTok : SignedToken :=
  jwtSign { userId := "ms-1" } REFRESH_TOKEN_SECRET 0 refreshTokenExpiry

/-- A refresh token signed with the wrong secret (models tampering). -/
def badRefreshTok : SignedToken :=
  jwtSign { userId := "ms-1" } "other-secret" 0 refreshTokenExpiry

/-- A correctly signed refresh token whose user id is not in storage. -/
def ghostRefreshTok : SignedToken :=
  jwtSign { userId := "ghost" } REFRESH_TOKEN_SECRET 0 refreshTokenExpiry

/-- An access token for `msRow` whose email/name claims are stale, to
observe that resolution returns the stored row, not the claims. -/
def staleAccessTok : SignedToken :=
  jwtSign { userId := "ms-1", email := some "stale@x.com",
            name := some "Stale", provider := some "email" }
    ACCESS_TOKEN_SECRET 0 accessTokenExpiry

/-- An access token signed with the wrong secret. -/
def badAccessTok : SignedToken :=
  jwtSign { userId := "ms-1" } "other-secret" 0 accessTokenExpiry

/-- A correctly signed access token for an absent user id. -/
def ghostAccessTok : SignedToken :=
  jwtSign { userId := "ghost" } ACCESS_TOKEN_SECRET 0 accessTokenExpiry

/-- The row `createUser` persists, as a function of its inputs (the shape
of the `prisma.users.create` data in the register flow). -/
def freshUserRow (name email password : String) (now : Nat)
    (freshId rand : String) : UserRow :=
  { id := freshId, name := name, email := some email,
    password_hash := some (bcryptHash password 10), plan_id := defaultPlanId,
    microsoft_id := some ("temp_" ++ toString now ++ "_" ++ rand),
    created_at := some now }

/-- The row the Microsoft find-or-create path persists (the shape of its
`prisma.users.create` data). -/
def freshOAuthRow (microsoft_id name email : String) (now : Nat) : UserRow :=
  { id := microsoft_id, name := name, email := some email,
    password_hash := none, plan_id := defaultPlanId,
    microsoft_id := some ("microsoft_" ++ microsoft_id),
    created_at := some now, last_login := some now }

/-- The access-token claims the refresh route signs for a user. -/
def refreshedClaims (u : User) : JwtPayload :=
  { userId := u.id, email := u.email, name := some u.name,
    provider := some "email" }

/-- The field subset `getMyUser`'s select clause fetches and returns
(`created_at` and `last_login` are not selected). -/
def selectedUser (u : UserRow) : User :=
  { id := u.id, plan_id := u.plan_id, name := u.name, email := u.email,
    photo_url := u.photo_url, password_hash := u.password_hash,
    microsoft_id := u.microsoft_id }

/-! ### Helper lemmas -/

/-- A bcrypt digest is never the empty string (it starts with the
`$2a$<cost>$` prefix). -/
theorem bcryptHash_ne_empty (p : String) (c : Nat) : bcryptHash p c ≠ "" := by
  intro h
  have hlen := congrArg String.length h
  rw [bcryptHash] at hlen
  simp only [String.length_append] at hlen
  have h1 : String.length "$2a$" = 4 := rfl
  have h2 : String.length "$" = 1 := rfl
  have h3 : String.length "" = 0 := rfl
  omega

/-- Looking a row up in `db ++ [row]` when `db` has no hit inspects only
the appended row. -/
theorem find?_append_singleton {p : UserRow → Bool} {db : List UserRow}
    (row : UserRow) (h : db.find? p = none) :
    (db ++ [row]).find? p = if p row then some row else none := by
  rw [List.find?_append, h]
  cases hp : p row <;> simp [List.find?, hp, Option.or]

/-- Updating `last_login` of an id absent from `db` touches only the
appended row. -/
theorem updateLastLogin_append_absent (db : List UserRow) (row : UserRow)
    (id : String) (t : Nat) (h : findUniqueById db id = none) :
    updateLastLogin (db ++ [row]) id t =
      db ++ [if row.id == id then { row with last_login := some t } else row] := by
  have hall := List.find?_eq_none.mp h
  unfold updateLastLogin
  rw [List.map_append]
  congr 1
  · conv_rhs => rw [← List.map_id db]
    refine List.map_congr_left ?_
    intro v hv
    have : ¬((fun u => u.id == id) v = true) := hall v hv
    simp only at this
    simp [this]

/-! ### Claims -/

/-- C1 (observed divergence): calling the register route a second time
with an email that already has a row leaves the set of user rows
unchanged, but the response status is 500, not the promised 409 — the
service's catch-all re-throws its own `{status: 409, ...}` conflict object
wrapped inside a `{status: 500, error: <the 409 object>}`, and the route
forwards that outer status. -/
theorem C1_duplicate_register_surfaces_500_not_409 :
    registerRoute [anaRow] "Ana" "ana@x.com" "secret1" 5 "u-2" "rnd" =
      ([anaRow],
        .err 500 (.obj 409 (.str "User with this email already exists."))) :=
  rfl

/-- C3: `loginUser` fails with the identical generic
`{401, 'Invalid email or password'}` in all three cases: no row with the
email, a row without a password hash (OAuth-only account), and a bcrypt
mismatch against the stored hash. -/
theorem C3_login_failures_generic_401
    (db : List UserRow) (email password : String)
    (h : findUniqueByEmail db email = none ∨
      (∃ u, findUniqueByEmail db email = some u ∧ u.password_hash = none) ∨
      (∃ u h0, findUniqueByEmail db email = some u ∧ u.password_hash = some h0 ∧
        bcryptCompare password h0 = false)) :
    loginUser db email password =
      .error ⟨401, .str "Invalid email or password"⟩ := by
  unfold loginUser
  rcases h with h | ⟨u, hu, hph⟩ | ⟨u, h0, hu, hph, hcmp⟩
  · rw [h]
  · rw [hu]
    simp [optStrFalsy, hph]
  · rw [hu]
    by_cases he : h0 = ""
    · simp [optStrFalsy, hph, he]
    · simp [optStrFalsy, hph, he, hcmp]

/-- Witness for C3 at a concrete input (absent user). -/
theorem C3_login_failures_generic_401_witness :
    loginUser [] "a@b.c" "hunter2" =
      .error ⟨401, .str "Invalid email or password"⟩ :=
  C3_login_failures_generic_401 [] "a@b.c" "hunter2" (Or.inl rfl)

/-- C9: every row the password registration path persists carries both a
non-null bcrypt password hash and a non-null synthetic OAuth subject id of
the shape `temp_<timestamp>_<random>`, so the password path populates both
credential columns rather than exactly one. -/
theorem C9_register_populates_both_credentials
    (db : List UserRow) (name email password : String) (now : Nat)
    (freshId rand : String) (db2 : List UserRow) (row : UserRow)
    (h : createUser db name email password now freshId rand = .ok (db2, row)) :
    row.password_hash = some (bcryptHash password 10) ∧
    row.microsoft_id = some ("temp_" ++ toString now ++ "_" ++ rand) := by
  simp only [createUser] at h
  split at h
  · exact absurd h (by simp)
  · split at h
    · exact absurd h (by simp)
    · split at h
      · exact absurd h (by simp)
      · injection h with h
        rw [Prod.mk.injEq] at h
        obtain ⟨h1, h2⟩ := h
        subst h2
        exact ⟨rfl, rfl⟩

/-- Witness for C9 at a concrete registration. -/
theorem C9_register_populates_both_credentials_witness :
    createUser [] "Ana" "ana@x.com" "secret1" 0 "u-1" "r0" =
      .ok ([anaRow], anaRow) ∧
    anaRow.password_hash = some (bcryptHash "secret1" 10) ∧
    anaRow.microsoft_id = some ("temp_" ++ toString 0 ++ "_" ++ "r0") :=
  ⟨rfl, C9_register_populates_both_credentials [] "Ana" "ana@x.com" "secret1" 0
    "u-1" "r0" [anaRow] anaRow rfl⟩

/-- C8: a successful password login returns the database unchanged (it
performs no write at all), while the OAuth find-or-create path, on an
existing user, writes `last_login := now` and nothing else. -/
theorem C8_login_frame_oauth_updates_last_login :
    (∀ db email password out, loginUser db email password = .ok out →
      out.1 = db) ∧
    (∀ db mid nm em t u, findUniqueById db mid = some u →
      findOrCreateMicrosoftUser db mid nm em t =
        .ok (updateLastLogin db mid t,
          rowToUser { u with last_login := some t }, false)) := by
  constructor
  · intro db email password out h
    unfold loginUser at h
    split at h
    · exact absurd h (by simp)
    · split at h
      · exact absurd h (by simp)
      · split at h
        · exact absurd h (by simp)
        · injection h with h
          rw [← h]
  · intro db mid nm em t u hu
    unfold findOrCreateMicrosoftUser
    rw [hu]

/-- Witness for C8: a concrete login leaves the database unchanged and a
concrete OAuth re-authentication rewrites only `last_login`. -/
theorem C8_login_frame_oauth_updates_last_login_witness :
    loginUser [anaRow] "ana@x.com" "secret1" = .ok ([anaRow], rowToUser anaRow) ∧
    ([anaRow], rowToUser anaRow).1 = [anaRow] ∧
    findUniqueById [msRow] "ms-1" = some msRow ∧
    findOrCreateMicrosoftUser [msRow] "ms-1" "Bob" "bob@x.com" 7 =
      .ok (updateLastLogin [msRow] "ms-1" 7,
        rowToUser { msRow with last_login := some 7 }, false) :=
  ⟨rfl,
   C8_login_frame_oauth_updates_last_login.1 [anaRow] "ana@x.com" "secret1"
     ([anaRow], rowToUser anaRow) rfl,
   rfl,
   C8_login_frame_oauth_updates_last_login.2 [msRow] "ms-1" "Bob" "bob@x.com"
     7 msRow rfl⟩

/-- C2: for every `(name, email, password)` triple that passes the
register schema, starting from a state with no row under that email (and
a fresh generated id), registration succeeds and an immediately following
`loginUser(email, password)` succeeds on the resulting state and returns
the same user id. -/
theorem C2_register_then_login_same_id
    (db : List UserRow) (name email password : String) (now : Nat)
    (freshId rand : String)
    (hval : registerSchemaIssues name email password = [])
    (hemail : findUniqueByEmail db email = none)
    (hid : findUniqueById db freshId = none) :
    ∃ db2 row u,
      createUser db name email password now freshId rand = .ok (db2, row) ∧
      loginUser db2 email password = .ok (db2, u) ∧ u.id = row.id := by
  refine ⟨db ++ [freshUserRow name email password now freshId rand],
    freshUserRow name email password now freshId rand,
    rowToUser (freshUserRow name email password now freshId rand),
    ?_, ?_, rfl⟩
  · simp [createUser, createRow, freshUserRow, hval, hemail, hid]
  · have hfind : findUniqueByEmail
        (db ++ [freshUserRow name email password now freshId rand]) email =
        some (freshUserRow name email password now freshId rand) := by
      unfold findUniqueByEmail at hemail ⊢
      rw [find?_append_singleton _ hemail]
      simp [freshUserRow]
    unfold loginUser
    rw [hfind]
    have hne : (bcryptHash password 10 == "") = false :=
      beq_eq_false_iff_ne.mpr (bcryptHash_ne_empty password 10)
    simp [optStrFalsy, bcryptCompare, freshUserRow, hne]

/-- Witness for C2 at a concrete registration of Ana. -/
theorem C2_register_then_login_same_id_witness :
    ∃ db2 row u,
      createUser [] "Ana" "ana@x.com" "secret1" 0 "u-1" "r0" = .ok (db2, row) ∧
      loginUser db2 "ana@x.com" "secret1" = .ok (db2, u) ∧ u.id = row.id :=
  C2_register_then_login_same_id [] "Ana" "ana@x.com" "secret1" 0 "u-1" "r0"
    (by decide) rfl rfl

/-- C5: the refresh route answers 401 both for an invalid or expired
refresh token and for a valid one whose user id has no row any more; on
success it mints one fresh access token with the access secret, sets only
the `accessToken` cookie and returns `{accessToken, user}` — the refresh
token is not rotated (no new refresh token appears in cookies or body). -/
theorem C5_refresh_token_contract (db : List UserRow) (now : Nat) :
    (∀ rt e, jwtVerify rt REFRESH_TOKEN_SECRET now = .error e →
      refreshRoute db (some rt) now =
        .err 401 (.str "Invalid or expired refresh token")) ∧
    (∀ rt p, jwtVerify rt REFRESH_TOKEN_SECRET now = .ok p →
      findUniqueById db p.userId = none →
      refreshRoute db (some rt) now = .err 401 (.str "User not found")) ∧
    (∀ rt p u, jwtVerify rt REFRESH_TOKEN_SECRET now = .ok p →
      findUniqueById db p.userId = some u →
      ∃ tok, tok = jwtSign (refreshedClaims (rowToUser u))
          ACCESS_TOKEN_SECRET now accessTokenExpiry ∧
        refreshRoute db (some rt) now =
          .ok 200 [("accessToken", tok)]
            { accessToken := tok, user := rowToUser u }) := by
  refine ⟨?_, ?_, ?_⟩
  · intro rt e h
    simp [refreshRoute, h]
  · intro rt p h hu
    simp [refreshRoute, h, getMyUserFromId, hu]
  · intro rt p u h hu
    refine ⟨_, rfl, ?_⟩
    simp [refreshRoute, h, getMyUserFromId, hu, refreshedClaims, rowToUser]

/-- Witness for C5: tampered token, dangling user id, and a successful
refresh for Bob. -/
theorem C5_refresh_token_contract_witness :
    refreshRoute [msRow] (some badRefreshTok) 10 =
      .err 401 (.str "Invalid or expired refresh token") ∧
    refreshRoute [msRow] (some ghostRefreshTok) 10 =
      .err 401 (.str "User not found") ∧
    ∃ tok, tok = jwtSign (refreshedClaims (rowToUser msRow))
        ACCESS_TOKEN_SECRET 10 accessTokenExpiry ∧
      refreshRoute [msRow] (some goodRefreshTok) 10 =
        .ok 200 [("accessToken", tok)]
          { accessToken := tok, user := rowToUser msRow } :=
  ⟨(C5_refresh_token_contract [msRow] 10).1 badRefreshTok .jsonWebTokenError rfl,
   (C5_refresh_token_contract [msRow] 10).2.1 ghostRefreshTok
     { userId := "ghost" } rfl rfl,
   (C5_refresh_token_contract [msRow] 10).2.2 goodRefreshTok
     { userId := "ms-1" } msRow rfl rfl⟩

/-- C6: resolving a user from an access token fails 401 when verification
fails (bad signature or expired); with a verified token whose user id has
no row it returns `null` rather than an error; and when the row exists the
result is built from the freshly fetched row (every returned field comes
from the row, none from the token's claims, and the un-selected
`created_at`/`last_login` are absent). -/
theorem C6_resolve_from_access_token (db : List UserRow) (now : Nat) :
    (∀ tok e, jwtVerify tok ACCESS_TOKEN_SECRET now = .error e →
      getMyUser db tok now = .error ⟨401, .str "Invalid or expired token"⟩) ∧
    (∀ tok p, jwtVerify tok ACCESS_TOKEN_SECRET now = .ok p → p.userId ≠ "" →
      findUniqueById db p.userId = none → getMyUser db tok now = .ok none) ∧
    (∀ tok p u, jwtVerify tok ACCESS_TOKEN_SECRET now = .ok p →
      p.userId ≠ "" → findUniqueById db p.userId = some u →
      getMyUser db tok now = .ok (some (selectedUser u))) := by
  refine ⟨?_, ?_, ?_⟩
  · intro tok e h
    unfold getMyUser
    rw [h]
  · intro tok p h hne hu
    unfold getMyUser
    rw [h]
    simp [hne, hu]
  · intro tok p u h hne hu
    unfold getMyUser
    rw [h]
    simp [hne, hu, selectedUser]

/-- Witness for C6: a tampered token, a dangling user id, and a token with
stale claims resolving to the stored row. -/
theorem C6_resolve_from_access_token_witness :
    getMyUser [msRow] badAccessTok 10 =
      .error ⟨401, .str "Invalid or expired token"⟩ ∧
    getMyUser [msRow] ghostAccessTok 10 = .ok none ∧
    getMyUser [msRow] staleAccessTok 10 = .ok (some (selectedUser msRow)) :=
  ⟨(C6_resolve_from_access_token [msRow] 10).1 badAccessTok
     .jsonWebTokenError rfl,
   (C6_resolve_from_access_token [msRow] 10).2.1 ghostAccessTok
     { userId := "ghost" } rfl (by decide) rfl,
   (C6_resolve_from_access_token [msRow] 10).2.2 staleAccessTok
     { userId := "ms-1", email := some "stale@x.com", name := some "Stale",
       provider := some "email" } msRow rfl (by decide) rfl⟩

/-- C4: the OAuth find-or-create called twice with identical arguments,
from a state with no row under the oauth id (nor under the email, so the
insert passes the unique constraints): the first call at `t1` creates
exactly one row, keyed by the oauth id with `last_login = t1`, and reports
`isNewUser = true`; the second call at a strictly later `t2` reports
`isNewUser = false`, returns the same user id, and rewrites only that
row's `last_login` to the strictly later `t2`. -/
theorem C4_oauth_find_or_create_twice
    (db : List UserRow) (oauthId name email : String) (t1 t2 : Nat)
    (hid : findUniqueById db oauthId = none)
    (hemail : findUniqueByEmail db email = none)
    (ht : t1 < t2) :
    ∃ row u1 u2,
      findOrCreateMicrosoftUser db oauthId name email t1 =
        .ok (db ++ [row], u1, true) ∧
      (db ++ [row]).length = db.length + 1 ∧
      u1.id = oauthId ∧ u1.last_login = some t1 ∧
      findOrCreateMicrosoftUser (db ++ [row]) oauthId name email t2 =
        .ok (db ++ [{ row with last_login := some t2 }], u2, false) ∧
      u2.id = u1.id ∧ u2.last_login = some t2 ∧ t1 < t2 := by
  refine ⟨freshOAuthRow oauthId name email t1,
    rowToUser (freshOAuthRow oauthId name email t1),
    rowToUser { freshOAuthRow oauthId name email t1 with last_login := some t2 },
    ?_, by simp, rfl, rfl, ?_, rfl, rfl, ht⟩
  · simp [findOrCreateMicrosoftUser, createRow, freshOAuthRow, hid, hemail]
  · have hfound : findUniqueById
        (db ++ [freshOAuthRow oauthId name email t1]) oauthId =
        some (freshOAuthRow oauthId name email t1) := by
      unfold findUniqueById at hid ⊢
      rw [find?_append_singleton _ hid]
      simp [freshOAuthRow]
    have hupd := updateLastLogin_append_absent db
      (freshOAuthRow oauthId name email t1) oauthId t2 hid
    simp only [freshOAuthRow] at hfound hupd
    simp [findOrCreateMicrosoftUser, freshOAuthRow, hfound, hupd]

/-- Witness for C4 at a concrete pair of calls for Bob. -/
theorem C4_oauth_find_or_create_twice_witness :
    ∃ row u1 u2,
      findOrCreateMicrosoftUser [] "ms-1" "Bob" "bob@x.com" 1 =
        .ok ([] ++ [row], u1, true) ∧
      ([] ++ [row]).length = List.length ([] : List UserRow) + 1 ∧
      u1.id = "ms-1" ∧ u1.last_login = some 1 ∧
      findOrCreateMicrosoftUser ([] ++ [row]) "ms-1" "Bob" "bob@x.com" 7 =
        .ok ([] ++ [{ row with last_login := some 7 }], u2, false) ∧
      u2.id = u1.id ∧ u2.last_login = some 7 ∧ 1 < 7 :=
  C4_oauth_find_or_create_twice [] "ms-1" "Bob" "bob@x.com" 1 7 rfl rfl
    (by decide)

/-- C7 counterexample: with Ana's email-registered row present, the OAuth
find-or-create call for a different oauth id and the same email does not
create a second row with that email — the insert is rejected by the
store's unique-email constraint and the call fails with status 500. -/
theorem C7_collision_counterexample :
    findOrCreateMicrosoftUser [anaRow] "ms-9" "Ana" "ana@x.com" 5 =
      .error ⟨500, .str (uniqueViolationMsg "email")⟩ ∧
    ¬ ∃ db2 res, findOrCreateMicrosoftUser [anaRow] "ms-9" "Ana" "ana@x.com" 5 =
      .ok (db2, res) := by
  have h : findOrCreateMicrosoftUser [anaRow] "ms-9" "Ana" "ana@x.com" 5 =
      .error ⟨500, .str (uniqueViolationMsg "email")⟩ := rfl
  refine ⟨h, ?_⟩
  rintro ⟨db2, res, hc⟩
  rw [h] at hc
  exact Except.noConfusion hc

/-- C7 amended: when a row already holds email `e` under a different id
and no row has id `oauthId`, the find-or-create detects the collision but
performs no merge and modifies no field of the existing account; it
proceeds to attempt the insert of a new row with id `oauthId` and email
`e`, and the store's unique-email constraint rejects that insert, so the
call fails with a 500 server error and no row is created or changed. -/
theorem C7_collision_no_merge_insert_rejected
    (db : List UserRow) (oauthId name email : String) (now : Nat)
    (u : UserRow)
    (hid : findUniqueById db oauthId = none)
    (hemail : findUniqueByEmail db email = some u) :
    findOrCreateMicrosoftUser db oauthId name email now =
      .error ⟨500, .str (uniqueViolationMsg "email")⟩ := by
  simp [findOrCreateMicrosoftUser, createRow, hid, hemail]

/-- Witness for C7's amended statement at a concrete collision. -/
theorem C7_collision_no_merge_insert_rejected_witness :
    findOrCreateMicrosoftUser [anaRow] "ms-7" "Ana Clone" "ana@x.com" 9 =
      .error ⟨500, .str (uniqueViolationMsg "email")⟩ :=
  C7_collision_no_merge_insert_rejected [anaRow] "ms-7" "Ana Clone"
    "ana@x.com" 9 anaRow rfl rfl

/-- C10: every access token minted by the refresh route carries provider
claim `email`, whatever user (and original provider) is involved, while
the microsoft-auth route mints provider `microsoft` — so refreshing a
Microsoft session replaces a provider-`microsoft` access token with a
provider-`email` one. -/
theorem C10_refresh_provider_always_email :
    (∀ db rtc now s ck body, refreshRoute db rtc now = .ok s ck body →
      body.accessToken.payload.provider = some "email") ∧
    (∀ db mid nm em now db2 s ck body,
      microsoftAuthRoute db mid nm em now = (db2, .ok s ck body) →
      body.accessToken.payload.provider = some "microsoft") := by
  constructor
  · intro db rtc now s ck body h
    unfold refreshRoute at h
    split at h
    · exact absurd h (by simp)
    · split at h
      · exact absurd h (by simp)
      · split at h
        · exact absurd h (by simp)
        · injection h with h1 h2 h3
          rw [← h3]
          rfl
  · intro db mid nm em now db2 s ck body h
    simp only [microsoftAuthRoute] at h
    split at h
    · rw [Prod.mk.injEq] at h
      exact absurd h.2 (by simp)
    · split at h
      · rw [Prod.mk.injEq] at h
        exact absurd h.2 (by simp)
      · rw [Prod.mk.injEq] at h
        injection h.2 with h1 h2 h3
        rw [← h3]
        rfl

/-- Witness for C10: a concrete refresh of Bob's Microsoft session and a
concrete microsoft-auth call. -/
theorem C10_refresh_provider_always_email_witness :
    ∃ s1 ck1 b1 db2 s2 ck2 b2,
      refreshRoute [msRow] (some goodRefreshTok) 10 = .ok s1 ck1 b1 ∧
      b1.accessToken.payload.provider = some "email" ∧
      microsoftAuthRoute [] "ms-1" "Bob" "bob@x.com" 1 = (db2, .ok s2 ck2 b2) ∧
      b2.accessToken.payload.provider = some "microsoft" := by
  refine ⟨_, _, _, _, _, _, _, rfl, ?_, rfl, ?_⟩
  · exact C10_refresh_provider_always_email.1 [msRow] (some goodRefreshTok)
      10 _ _ _ rfl
  · exact C10_refresh_provider_always_email.2 [] "ms-1" "Bob" "bob@x.com"
      1 _ _ _ _ rfl

end TurboGo
